import Mathlib

/-!
Shallow embedding of the SO-101 Setup Builder frontend stores and pages
(`frontend/src/stores/wizardStore.ts`, `componentStore.ts`, `setupStore.ts`,
`frontend/src/pages/ComparisonPage.tsx`, `ComponentsPage.tsx`, `WizardPage.tsx`)
together with the backend wizard/comparison operations described in the design
spec (the backend sources are not part of this tree; those definitions are
modelled from the spec and marked as such).

TypeScript `number` values that the embedded logic only tests for presence or
compares for equality (budgets, component ids, step counters) are modelled as
`Int`; vendor prices are never computed on by the embedded claims and are left
out of the comparison model.
-/

namespace SO101

/-- Experience level options of wizard step 1 (`wizardStore.ts`). -/
inductive ExperienceLevel
  | beginner
  | intermediate
  | advanced
deriving DecidableEq

/-- Use-case options of wizard step 3 (`wizardStore.ts`). -/
inductive UseCase
  | learning
  | research
  | production
deriving DecidableEq

/-- Compute platform options of wizard step 4 (`wizardStore.ts`). -/
inductive ComputePlatform
  | cuda
  | mps
  | xpu
  | cpu
deriving DecidableEq

/-- Camera preference options of wizard step 5 (`wizardStore.ts`). -/
inductive CameraPreference
  | basic
  | realsense
  | multiple
  | phone
deriving DecidableEq

/-- Arm configuration options of wizard step 3 (`wizardStore.ts`). -/
inductive ArmType
  | single
  | dual
deriving DecidableEq

/-- `WizardProfile` from `wizardStore.ts`: every field is optional, filled in
progressively across the five steps. -/
structure WizardProfile where
  experience : Option ExperienceLevel
  budget : Option Int
  use_case : Option UseCase
  compute_platform : Option ComputePlatform
  camera_preference : Option CameraPreference
  arm_type : Option ArmType
deriving DecidableEq

/-- The empty profile `{}` used at wizard start / reset. -/
def emptyProfile : WizardProfile :=
  { experience := none, budget := none, use_case := none,
    compute_platform := none, camera_preference := none, arm_type := none }

/-- The `data` payload of a step write: a partial profile record
(the TypeScript side types it `Record<string, unknown>`; the fields the wizard
ever sends are exactly the profile fields). -/
abbrev StepData := WizardProfile

/-- Field-wise merge: a field supplied by the step payload overrides the stored
one, an absent field keeps the stored value. -/
def mergeField {α : Type} (new old : Option α) : Option α :=
  match new with
  | some v => some v
  | none => old

/-- Merging a step payload into the stored profile, field by field. -/
def mergeProfile (p : WizardProfile) (d : StepData) : WizardProfile :=
  { experience := mergeField d.experience p.experience,
    budget := mergeField d.budget p.budget,
    use_case := mergeField d.use_case p.use_case,
    compute_platform := mergeField d.compute_platform p.compute_platform,
    camera_preference := mergeField d.camera_preference p.camera_preference,
    arm_type := mergeField d.arm_type p.arm_type }

/-- Server-side wizard session row: current step index, partially filled
profile, completion flag (spec section 3, `Setup`). -/
structure Setup where
  current_step : Int
  profile : WizardProfile
  completed : Bool
deriving DecidableEq

/-- Failure modes of the server `update_step` operation (spec section 7
taxonomy: `NotFound` for an unknown setup id, `Conflict` for a step write that
does not match the stored current step). -/
inductive WizardError
  | NotFound
  | Conflict
deriving DecidableEq

/-- Modelled from the spec: the backend wizard service is not part of this
source tree (only the frontend is), so `update_step` follows spec section 4.1:
it validates that the setup exists (else `NotFound`), validates that `step`
matches the stored `current_step` (else the step write is rejected — spec
section 7 calls this `ConflictError`), merges `data` into the profile,
advances `current_step` by one, and sets `completed` once step 5 is saved. -/
def update_step (store : String → Option Setup) (setup_id : String)
    (step : Int) (data : StepData) : Except WizardError Setup :=
  match store setup_id with
  | none => Except.error WizardError.NotFound
  | some s =>
      if step = s.current_step then
        Except.ok
          { current_step := s.current_step + 1,
            profile := mergeProfile s.profile data,
            completed := if step = 5 then true else s.completed }
      else
        Except.error WizardError.Conflict

/-- Response body of a successful step write, as consumed by the client store
(`current_step`, `profile`, `wizard_completed`). -/
structure StepResponse where
  current_step : Int
  profile : WizardProfile
  wizard_completed : Bool
deriving DecidableEq

/-- Client wizard store state (`wizardStore.ts`, `WizardState`). -/
structure WizardState where
  setupId : Option String
  currentStep : Int
  profile : WizardProfile
  isLoading : Bool
  error : Option String
  wizardCompleted : Bool
deriving DecidableEq

/-- The `updateStep` action of `wizardStore.ts`. The network call is modelled
by its observable outcome `api : Option StepResponse` (`some` = resolved
response, `none` = rejected promise). With no active `setupId` the action sets
only the `error` field and returns; on success it stores the response fields
(the pre-call `set` cleared `error`); on failure it sets `error` and clears
`isLoading`, touching nothing else. -/
def updateStep (s : WizardState) (step : Int) (data : StepData)
    (api : Option StepResponse) : WizardState :=
  match s.setupId with
  | none => { s with error := some "No active setup" }
  | some _ =>
      match api with
      | some resp =>
          { s with currentStep := resp.current_step,
                   profile := resp.profile,
                   wizardCompleted := resp.wizard_completed,
                   isLoading := false,
                   error := none }
      | none =>
          { s with error := some "Failed to save step", isLoading := false }

/-- The `goToStep` action of `wizardStore.ts`: sets `currentStep` when the
target is within 1..5, otherwise does nothing. -/
def goToStep (s : WizardState) (step : Int) : WizardState :=
  if 1 ≤ step ∧ step ≤ 5 then { s with currentStep := step } else s

/-! ### Component store (`componentStore.ts`)

Only the compare-list portion of `ComponentState` is mutated by the actions the
claims concern; the catalog-query fields (`components`, `categories`,
`filters`, pagination, loading flags) are independent of those actions and are
not modelled. Component ids are the numeric `Component.id` values. -/

/-- Compare-list slice of `ComponentState` (`componentStore.ts`). -/
structure ComponentState where
  compareList : List Int
deriving DecidableEq

/-- The `addToCompare` action: ignored once the list holds 5 entries, ignored
when the id is already present, otherwise appended. -/
def addToCompare (s : ComponentState) (componentId : Int) : ComponentState :=
  if 5 ≤ s.compareList.length then s
  else if componentId ∈ s.compareList then s
  else { s with compareList := s.compareList ++ [componentId] }

/-- The `removeFromCompare` action: filters the id out of the list. -/
def removeFromCompare (s : ComponentState) (componentId : Int) : ComponentState :=
  { s with compareList := s.compareList.filter (fun id => id != componentId) }

/-- The `clearCompare` action. -/
def clearCompare (s : ComponentState) : ComponentState :=
  { s with compareList := [] }

/-- What `ComparisonPage` does with the current compare list on render/effect:
`fetchComparison` (the comparison request) runs only under the guard
`compareList.length >= 2`; below that the page early-returns a selection
prompt and issues no request. -/
inductive CompareEffect
  | fetchComparison
  | selectionPrompt
deriving DecidableEq

/-- The `useEffect` guard plus the `compareList.length < 2` early return of
`ComparisonPage.tsx`. -/
def comparisonPageEffect (compareList : List Int) : CompareEffect :=
  if 2 ≤ compareList.length then CompareEffect.fetchComparison
  else CompareEffect.selectionPrompt

/-! ### Comparison engine (spec sections 4.4 and 6)

The backend comparison service is not part of this source tree; the frontend
only declares its response shape (`ComparisonData` in `ComparisonPage.tsx`).
The operation is modelled from the spec. Specification values are kept in
their normalized string form, since the spec fixes value comparison to be
plain equality after normalizing to string form. The price-based
`best_value_id` selection operates on floating-point vendor prices and is not
modelled; no claim concerns it. -/

/-- A catalog component as seen by the comparison engine: its id, its
specification mapping (key to normalized string value) and the
default-for-SO101 flag. -/
structure CompComponent where
  id : Int
  specifications : List (String × String)
  is_default_for_so101 : Bool
deriving DecidableEq

/-- Failure modes of `compare` (spec: `InvalidComparisonSize` for a count
outside 2..5, 404 when a referenced component is missing). -/
inductive CompareError
  | InvalidComparisonSize
  | ComponentNotFound
deriving DecidableEq

/-- The specification value a component carries for a key, if any. -/
def specValue (c : CompComponent) (k : String) : Option String :=
  c.specifications.lookup k

/-- The specification keys of one component. -/
def specKeys (c : CompComponent) : List String :=
  c.specifications.map Prod.fst

/-- The union of specification keys across the selected components. -/
def keyUnion (cs : List CompComponent) : List String :=
  ((cs.map specKeys).flatten).dedup

/-- A key is common when every selected component carries it (spec 4.4:
present in all, even if the values differ). -/
def isCommon (cs : List CompComponent) (k : String) : Bool :=
  cs.all (fun c => (specValue c k).isSome)

/-- A key is differing when at least one component's value for it differs from
another's (values compared after string normalization). -/
def isDiffering (cs : List CompComponent) (k : String) : Bool :=
  cs.any (fun c => cs.any (fun d => specValue c k != specValue d k))

/-- The comparison view returned for a valid request: the loaded components in
input order plus the common/differing key sets (the response shape declared as
`ComparisonData` in `ComparisonPage.tsx`, price fields aside). -/
structure ComparisonResult where
  components : List CompComponent
  common_specs : List String
  differing_specs : List String
deriving DecidableEq

/-- Modelled from the spec: the backend comparison service is not part of this
source tree, so `compare` follows spec section 4.4: it requires 2 to 5
distinct identifiers (else `InvalidComparisonSize`), loads every referenced
component (404 if any is missing), and computes over the key union the common
keys (present in all) and the differing keys (some pair of values differs
after string normalization). -/
def compare (catalog : Int → Option CompComponent) (ids : List Int) :
    Except CompareError ComparisonResult :=
  if 2 ≤ ids.length ∧ ids.length ≤ 5 ∧ ids.Nodup then
    match ids.mapM catalog with
    | none => Except.error CompareError.ComponentNotFound
    | some cs =>
        Except.ok
          { components := cs,
            common_specs := (keyUnion cs).filter (isCommon cs),
            differing_specs := (keyUnion cs).filter (isDiffering cs) }
  else
    Except.error CompareError.InvalidComparisonSize

/-! ### Setup store (`setupStore.ts`) -/

/-- Priority levels of a component recommendation (`setupStore.ts`). -/
inductive Priority
  | required
  | recommended
  | optional
deriving DecidableEq

/-- One AI-recommended component (`ComponentRecommendation` in
`setupStore.ts`). -/
structure ComponentRecommendation where
  component_id : Int
  component_name : String
  category : String
  reason : String
  priority : Priority
  quantity : Int
  alternatives : List Int
deriving DecidableEq

/-- The recommendation payload stored by the setup store (`Recommendations`
in `setupStore.ts`; the advisory `estimated_total` number is not computed on
by any modelled action). -/
structure Recommendations where
  components : List ComponentRecommendation
  summary : String
  notes : List String
deriving DecidableEq

/-- Chat roles (`ChatMessage.role` in `setupStore.ts`). -/
inductive ChatRole
  | user
  | assistant
deriving DecidableEq

/-- One transcript entry (`ChatMessage` in `setupStore.ts`). -/
structure ChatMessage where
  role : ChatRole
  content : String
deriving DecidableEq

/-- Setup store state slice touched by the modelled actions (`SetupState` in
`setupStore.ts`; the `pricing` field is untouched by the chat action and not
modelled). -/
structure SetupState where
  recommendations : Option Recommendations
  chatHistory : List ChatMessage
  isLoading : Bool
  error : Option String
deriving DecidableEq

/-- The fixed assistant reply substituted when the chat service call fails. -/
def chatErrorReply : String := "Sorry, I encountered an error. Please try again."

/-- The `sendChatMessage` action of `setupStore.ts`. The reasoning-service
call `recommendationsApi.chat(setupId, message, history)` is modelled by the
function `svc`, applied — exactly as in the source — to the setup id, the new
message, and the transcript as it stood before the user message was appended
(`some` = resolved response message, `none` = rejected promise). The action
first appends the user message, then on success appends the service response
verbatim as the assistant entry and returns it; on failure it appends the
fixed `chatErrorReply`, records the error, and returns the fixed reply. -/
def sendChatMessage (svc : String → String → List ChatMessage → Option String)
    (setupId : String) (message : String) (s : SetupState) :
    SetupState × String :=
  let newHistory := s.chatHistory ++ [{ role := ChatRole.user, content := message }]
  match svc setupId message s.chatHistory with
  | some resp =>
      ({ s with chatHistory := newHistory ++ [{ role := ChatRole.assistant, content := resp }],
                isLoading := false },
       resp)
  | none =>
      ({ s with chatHistory := newHistory ++ [{ role := ChatRole.assistant, content := chatErrorReply }],
                isLoading := false,
                error := some "Chat request failed" },
       chatErrorReply)

/-! ### Setup page (`ComponentsPage.tsx`, `SetupPage`) -/

/-- The guard of the `SetupPage` effect that triggers recommendation
generation: `if (setupId && wizardCompleted && !recommendations)`. -/
def shouldAutoGenerate (setupId : Option String) (wizardCompleted : Bool)
    (recommendations : Option Recommendations) : Bool :=
  setupId.isSome && wizardCompleted && recommendations.isNone

/-- The two top-level renderings of `SetupPage`: the incomplete-wizard gate or
the setup content. -/
inductive SetupPageView
  | wizardNotCompleteGate
  | setupContent
deriving DecidableEq

/-- The `if (!wizardCompleted)` early return of `SetupPage`, which renders the
"Wizard Not Complete" gate. -/
def setupPageView (wizardCompleted : Bool) : SetupPageView :=
  if !wizardCompleted then SetupPageView.wizardNotCompleteGate
  else SetupPageView.setupContent

/-! ### Wizard page (`WizardPage.tsx`) -/

/-- `WizardPage.canProceed`: whether the current step's required input is
present in the profile. The TypeScript truthiness tests (`!!profile.field`,
`profile.budget !== undefined`) reduce to presence, since every selectable
value is a non-empty string and the budget check is an explicit
undefined-test. -/
def canProceed (currentStep : Int) (p : WizardProfile) : Bool :=
  if currentStep = 1 then p.experience.isSome
  else if currentStep = 2 then p.budget.isSome
  else if currentStep = 3 then p.use_case.isSome
  else if currentStep = 4 then p.compute_platform.isSome
  else if currentStep = 5 then p.camera_preference.isSome
  else false

/-- The Next/Finish button of `WizardPage` is rendered with
`disabled={!canProceed() || isLoading}`; `handleNext` (the step write) runs
only when the button is enabled. -/
def nextEnabled (currentStep : Int) (p : WizardProfile) (isLoading : Bool) : Bool :=
  canProceed currentStep p && !isLoading

/-- The `stepData` payload assembled by `WizardPage.handleNext` for the
current step. -/
def handleNextStepData (currentStep : Int) (p : WizardProfile) : StepData :=
  if currentStep = 1 then { emptyProfile with experience := p.experience }
  else if currentStep = 2 then { emptyProfile with budget := p.budget }
  else if currentStep = 3 then
    { emptyProfile with use_case := p.use_case, arm_type := p.arm_type }
  else if currentStep = 4 then { emptyProfile with compute_platform := p.compute_platform }
  else if currentStep = 5 then { emptyProfile with camera_preference := p.camera_preference }
  else emptyProfile

/-! ### Concrete fixtures used by witnesses and counterexamples -/

/-- A stored setup sitting at step 2. -/
def setupA : Setup := { current_step := 2, profile := emptyProfile, completed := false }

/-- A one-row server store holding `setupA` under id `a`. -/
def storeA : String → Option Setup :=
  fun id => if id = "a" then some setupA else none

/-- A client wizard state with an active setup. -/
def wsA : WizardState :=
  { setupId := some "a", currentStep := 2, profile := emptyProfile,
    isLoading := false, error := none, wizardCompleted := false }

/-- A client wizard state with no active setup. -/
def wsNone : WizardState :=
  { setupId := none, currentStep := 2, profile := emptyProfile,
    isLoading := false, error := none, wizardCompleted := false }

/-- A two-entry compare list. -/
def cs2 : ComponentState := { compareList := [4, 8] }

/-- A full (five-entry) compare list. -/
def cs5 : ComponentState := { compareList := [1, 2, 3, 4, 5] }

/-- A catalog component whose only specification is a red color. -/
def compRed : CompComponent :=
  { id := 1, specifications := [("color", "red")], is_default_for_so101 := false }

/-- A catalog component whose only specification is a blue color. -/
def compBlue : CompComponent :=
  { id := 2, specifications := [("color", "blue")], is_default_for_so101 := false }

/-- A two-component catalog containing `compRed` and `compBlue`. -/
def cat2 : Int → Option CompComponent :=
  fun i => if i = 1 then some compRed else if i = 2 then some compBlue else none

/-- The comparison view `compare cat2 [1, 2]` produces: the color key is
present in both components, so it is common, and its values differ, so it is
also differing. -/
def cexResult : ComparisonResult :=
  { components := [compRed, compBlue],
    common_specs := ["color"],
    differing_specs := ["color"] }

/-- An empty setup-store state. -/
def ss0 : SetupState :=
  { recommendations := none, chatHistory := [], isLoading := false, error := none }

/-- A chat service that answers every request with the message itself. -/
def svcEcho : String → String → List ChatMessage → Option String :=
  fun _ m _ => some m

/-- A chat service whose every call fails. -/
def svcFail : String → String → List ChatMessage → Option String :=
  fun _ _ _ => none

/-- A profile holding a use case but no arm type (and nothing else). -/
def profileUseCaseOnly : WizardProfile :=
  { emptyProfile with use_case := some UseCase.learning }

/-! ### Helper lemmas -/

/-- `update_step` on a missing setup id. -/
lemma update_step_of_none (store : String → Option Setup) (sid : String)
    (n : Int) (d : StepData) (h : store sid = none) :
    update_step store sid n d = Except.error WizardError.NotFound := by
  unfold update_step
  rw [h]

/-- `update_step` on an existing setup reduces to the step-match test. -/
lemma update_step_of_some (store : String → Option Setup) (sid : String)
    (n : Int) (d : StepData) (s : Setup) (h : store sid = some s) :
    update_step store sid n d =
      if n = s.current_step then
        Except.ok
          { current_step := s.current_step + 1,
            profile := mergeProfile s.profile d,
            completed := if n = 5 then true else s.completed }
      else Except.error WizardError.Conflict := by
  unfold update_step
  rw [h]

/-- `addToCompare` below the cap with a fresh id appends the id. -/
lemma addToCompare_of_fresh (s : ComponentState) (id : Int)
    (hlen : s.compareList.length < 5) (hmem : id ∉ s.compareList) :
    addToCompare s id = { s with compareList := s.compareList ++ [id] } := by
  unfold addToCompare
  rw [if_neg (by omega), if_neg hmem]

/-! ### Claim theorems -/

/-- C8: `goToStep` with a target step outside 1..5 leaves the wizard store
state completely unchanged; with a target within 1..5 it sets `currentStep`
to the target and changes nothing else. -/
theorem goToStep_range_behaviour (s : WizardState) (step : Int) :
    (¬ (1 ≤ step ∧ step ≤ 5) → goToStep s step = s) ∧
    ((1 ≤ step ∧ step ≤ 5) →
      (goToStep s step).currentStep = step ∧
      (goToStep s step).setupId = s.setupId ∧
      (goToStep s step).profile = s.profile ∧
      (goToStep s step).isLoading = s.isLoading ∧
      (goToStep s step).error = s.error ∧
      (goToStep s step).wizardCompleted = s.wizardCompleted) := by
  unfold goToStep
  constructor
  · intro h
    rw [if_neg h]
  · intro h
    rw [if_pos h]
    exact ⟨rfl, rfl, rfl, rfl, rfl, rfl⟩

/-- Witness for C8 at step 9 (out of range) and step 4 (in range). -/
theorem goToStep_range_behaviour_witness :
    goToStep wsA 9 = wsA ∧ (goToStep wsA 4).currentStep = 4 := by
  have h9 := goToStep_range_behaviour wsA 9
  have h4 := goToStep_range_behaviour wsA 4
  exact ⟨h9.1 (by decide), (h4.2 (by decide)).1⟩

/-- C9: the compare list stays duplicate-free (`addToCompare` preserves
`Nodup`), `addToCompare` with an id already in the list leaves the state
unchanged, and on a list with fewer than 5 entries not containing the id,
`removeFromCompare id` after `addToCompare id` restores the original state. -/
theorem addToCompare_round_trip (s : ComponentState) (id : Int) :
    (id ∈ s.compareList → addToCompare s id = s) ∧
    (s.compareList.Nodup → (addToCompare s id).compareList.Nodup) ∧
    (s.compareList.length < 5 → id ∉ s.compareList →
      removeFromCompare (addToCompare s id) id = s) := by
  refine ⟨?_, ?_, ?_⟩
  · intro hmem
    unfold addToCompare
    by_cases h5 : 5 ≤ s.compareList.length
    · rw [if_pos h5]
    · rw [if_neg h5, if_pos hmem]
  · intro hnd
    unfold addToCompare
    by_cases h5 : 5 ≤ s.compareList.length
    · rw [if_pos h5]
      exact hnd
    · rw [if_neg h5]
      by_cases hmem : id ∈ s.compareList
      · rw [if_pos hmem]
        exact hnd
      · rw [if_neg hmem]
        simp [List.nodup_append, hnd, hmem]
  · intro hlen hmem
    rw [addToCompare_of_fresh s id hlen hmem]
    unfold removeFromCompare
    have hfil : ((s.compareList ++ [id]).filter fun x => x != id) = s.compareList := by
      rw [List.filter_append]
      have h1 : (s.compareList.filter fun x => x != id) = s.compareList :=
        List.filter_eq_self.mpr (fun a ha => by
          simp only [bne_iff_ne, ne_eq, decide_eq_true_eq]
          intro heq
          exact hmem (heq ▸ ha))
      have h2 : (([id] : List Int).filter fun x => x != id) = [] := by simp
      rw [h1, h2, List.append_nil]
    show ({ s with compareList := ((s.compareList ++ [id]).filter fun x => x != id) } : ComponentState) = s
    rw [hfil]

/-- Witness for C9: idempotent re-add of 4 on `[4, 8]`, and the 9-round-trip
on `[4, 8]`. -/
theorem addToCompare_round_trip_witness :
    addToCompare cs2 4 = cs2 ∧
    removeFromCompare (addToCompare cs2 9) 9 = cs2 := by
  have ha := addToCompare_round_trip cs2 4
  have hb := addToCompare_round_trip cs2 9
  exact ⟨ha.1 (by decide), hb.2.2 (by decide) (by decide)⟩

/-- C2: a comparison request is issued by the comparison page only with at
least 2 ids, `addToCompare` never grows the compare list beyond 5 entries
(a full list is left untouched and the 5-bound is preserved), and the
comparison operation rejects any count outside 2..5 with
`InvalidComparisonSize`. -/
theorem comparison_size_invariant :
    (∀ (l : List Int), comparisonPageEffect l = CompareEffect.fetchComparison →
      2 ≤ l.length) ∧
    (∀ (s : ComponentState) (id : Int), 5 ≤ s.compareList.length →
      addToCompare s id = s) ∧
    (∀ (s : ComponentState) (id : Int), s.compareList.length ≤ 5 →
      (addToCompare s id).compareList.length ≤ 5) ∧
    (∀ (catalog : Int → Option CompComponent) (ids : List Int),
      ids.length < 2 ∨ 5 < ids.length →
      compare catalog ids = Except.error CompareError.InvalidComparisonSize) := by
  refine ⟨?_, ?_, ?_, ?_⟩
  · intro l h
    unfold comparisonPageEffect at h
    by_cases h2 : 2 ≤ l.length
    · exact h2
    · rw [if_neg h2] at h
      exact absurd h (by simp)
  · intro s id h
    unfold addToCompare
    rw [if_pos h]
  · intro s id h
    unfold addToCompare
    by_cases h5 : 5 ≤ s.compareList.length
    · rw [if_pos h5]
      exact h
    · rw [if_neg h5]
      by_cases hmem : id ∈ s.compareList
      · rw [if_pos hmem]
        exact h
      · rw [if_neg hmem]
        simp only [List.length_append, List.length_singleton]
        omega
  · intro catalog ids h
    unfold compare
    rw [if_neg (by
      intro hc
      rcases hc with ⟨ha, hb, -⟩
      omega)]

/-- Witness for C2: a two-element list passes the page guard, a full compare
list absorbs a sixth id, and a singleton comparison is rejected. -/
theorem comparison_size_invariant_witness :
    2 ≤ ([3, 7] : List Int).length ∧
    addToCompare cs5 9 = cs5 ∧
    compare cat2 [1] = Except.error CompareError.InvalidComparisonSize := by
  have h := comparison_size_invariant
  exact ⟨h.1 [3, 7] (by decide), h.2.1 cs5 9 (by decide),
    h.2.2.2 cat2 [1] (by decide)⟩

/-- C1: `update_step(s, n, data)` succeeds exactly when the setup exists and
`n` equals its stored current step; the failures are deterministic (`NotFound`
for a missing setup, `Conflict` for a step mismatch); and the client store's
`updateStep` with no active `setupId` sets only the `error` field. -/
theorem update_step_succeeds_iff (store : String → Option Setup) (sid : String)
    (n : Int) (d : StepData) :
    ((∃ r, update_step store sid n d = Except.ok r) ↔
      ∃ s, store sid = some s ∧ n = s.current_step) ∧
    (store sid = none →
      update_step store sid n d = Except.error WizardError.NotFound) ∧
    (∀ s, store sid = some s → n ≠ s.current_step →
      update_step store sid n d = Except.error WizardError.Conflict) ∧
    (∀ (cs : WizardState) (api : Option StepResponse), cs.setupId = none →
      updateStep cs n d api = { cs with error := some "No active setup" }) := by
  refine ⟨?_, ?_, ?_, ?_⟩
  · constructor
    · rintro ⟨r, hr⟩
      cases hs : store sid with
      | none =>
          rw [update_step_of_none store sid n d hs] at hr
          exact Except.noConfusion hr
      | some s =>
          rw [update_step_of_some store sid n d s hs] at hr
          by_cases hn : n = s.current_step
          · exact ⟨s, rfl, hn⟩
          · rw [if_neg hn] at hr
            exact Except.noConfusion hr
    · rintro ⟨s, hs, hn⟩
      rw [update_step_of_some store sid n d s hs, if_pos hn]
      exact ⟨_, rfl⟩
  · intro h
    exact update_step_of_none store sid n d h
  · intro s hs hn
    rw [update_step_of_some store sid n d s hs, if_neg hn]
  · intro cs api h
    unfold updateStep
    rw [h]

/-- Witness for C1: against `storeA`, step 2 on setup `a` succeeds, step 3 on
setup `a` conflicts, any step on a missing id is `NotFound`, and the client
store without an active setup only records the error. -/
theorem update_step_succeeds_iff_witness :
    (∃ r, update_step storeA "a" 2 emptyProfile = Except.ok r) ∧
    update_step storeA "a" 3 emptyProfile = Except.error WizardError.Conflict ∧
    update_step storeA "missing" 2 emptyProfile = Except.error WizardError.NotFound ∧
    updateStep wsNone 2 emptyProfile none = { wsNone with error := some "No active setup" } := by
  have h2 := update_step_succeeds_iff storeA "a" 2 emptyProfile
  have h3 := update_step_succeeds_iff storeA "a" 3 emptyProfile
  have hm := update_step_succeeds_iff storeA "missing" 2 emptyProfile
  exact ⟨h2.1.mpr ⟨setupA, by decide, by decide⟩,
    h3.2.2.1 setupA (by decide) (by decide),
    hm.2.1 (by decide),
    h2.2.2.2 wsNone none rfl⟩

/-- C4: a failing client step save (no active setup, or a rejected API call)
preserves the stored answers: `setupId`, `currentStep`, `profile` and
`wizardCompleted` are unchanged after `updateStep` returns, so only the
`error` and `isLoading` fields can differ. -/
theorem updateStep_failure_preserves_answers (s : WizardState) (n : Int)
    (d : StepData) (api : Option StepResponse)
    (h : s.setupId = none ∨ api = none) :
    (updateStep s n d api).setupId = s.setupId ∧
    (updateStep s n d api).currentStep = s.currentStep ∧
    (updateStep s n d api).profile = s.profile ∧
    (updateStep s n d api).wizardCompleted = s.wizardCompleted := by
  unfold updateStep
  cases hs : s.setupId with
  | none => exact ⟨rfl, rfl, rfl, rfl⟩
  | some sid =>
      rcases h with h | h
      · rw [hs] at h
        exact Option.noConfusion h
      · subst h
        exact ⟨rfl, rfl, rfl, rfl⟩

/-- Witness for C4: a rejected API call against an active setup keeps the
profile and step of `wsA`. -/
theorem updateStep_failure_preserves_answers_witness :
    (updateStep wsA 2 emptyProfile none).profile = wsA.profile ∧
    (updateStep wsA 2 emptyProfile none).currentStep = wsA.currentStep ∧
    (updateStep wsA 2 emptyProfile none).setupId = wsA.setupId ∧
    (updateStep wsA 2 emptyProfile none).wizardCompleted = wsA.wizardCompleted := by
  have h := updateStep_failure_preserves_answers wsA 2 emptyProfile none (Or.inr rfl)
  exact ⟨h.2.2.1, h.2.1, h.1, h.2.2.2⟩

/-- The user/assistant transcript pair one chat call appends: the user
message followed by the assistant entry. -/
def chatPair (m reply : String) : List ChatMessage :=
  [{ role := ChatRole.user, content := m },
   { role := ChatRole.assistant, content := reply }]

/-- C5: a successful `sendChatMessage` appends the user message to the
transcript, hands the service exactly the prior transcript together with the
new message (the hypothesis applies `svc` to `s.chatHistory` as it stood
before the call), appends the service response verbatim as the assistant
entry, and returns that response. -/
theorem sendChatMessage_success
    (svc : String → String → List ChatMessage → Option String)
    (sid m : String) (s : SetupState) (resp : String)
    (h : svc sid m s.chatHistory = some resp) :
    sendChatMessage svc sid m s =
      ({ s with chatHistory := s.chatHistory ++ chatPair m resp, isLoading := false }, resp) := by
  simp only [sendChatMessage, h, chatPair]
  simp

/-- Witness for C5: the echo service answers `hello` and the transcript gains
the user/assistant pair. -/
theorem sendChatMessage_success_witness :
    sendChatMessage svcEcho "a" "hello" ss0 =
      ({ ss0 with chatHistory := ss0.chatHistory ++ chatPair "hello" "hello", isLoading := false }, "hello") :=
  sendChatMessage_success svcEcho "a" "hello" ss0 "hello" rfl

/-- C10: every `sendChatMessage` call grows the transcript by exactly two
entries — the user message followed by one assistant entry whose content is
the returned string — and on service failure the assistant entry and the
returned value are the fixed `chatErrorReply`, with the store error set,
instead of the exception propagating. -/
theorem sendChatMessage_appends_two
    (svc : String → String → List ChatMessage → Option String)
    (sid m : String) (s : SetupState) :
    ((sendChatMessage svc sid m s).1.chatHistory =
      s.chatHistory ++ chatPair m (sendChatMessage svc sid m s).2) ∧
    (svc sid m s.chatHistory = none →
      sendChatMessage svc sid m s =
        ({ s with chatHistory := s.chatHistory ++ chatPair m chatErrorReply,
                  isLoading := false,
                  error := some "Chat request failed" }, chatErrorReply)) := by
  constructor
  · cases hs : svc sid m s.chatHistory with
    | some resp => simp [sendChatMessage, hs, chatPair]
    | none => simp [sendChatMessage, hs, chatPair]
  · intro h
    simp only [sendChatMessage, h, chatPair]
    simp

/-- Witness for C10: the failing service appends the fixed apology pair to an
empty transcript and returns the fixed reply. -/
theorem sendChatMessage_appends_two_witness :
    sendChatMessage svcFail "a" "hi" ss0 =
      ({ ss0 with chatHistory := ss0.chatHistory ++ chatPair "hi" chatErrorReply,
                  isLoading := false,
                  error := some "Chat request failed" }, chatErrorReply) :=
  (sendChatMessage_appends_two svcFail "a" "hi" ss0).2 rfl

/-- C7: the setup page auto-generates recommendations only when the wizard is
completed and a setup id exists (the effect guard implies both), and an
incomplete wizard renders the Wizard Not Complete gate instead of the setup
content. -/
theorem generate_requires_completed_wizard (sid : Option String) (wc : Bool)
    (recs : Option Recommendations) :
    (shouldAutoGenerate sid wc recs = true → wc = true ∧ sid.isSome = true) ∧
    (wc = false → setupPageView wc = SetupPageView.wizardNotCompleteGate) := by
  constructor
  · intro h
    unfold shouldAutoGenerate at h
    simp only [Bool.and_eq_true] at h
    exact ⟨h.1.2, h.1.1⟩
  · intro h
    subst h
    rfl

/-- Witness for C7: the guard holds for a present setup id with a completed
wizard, and a false completion flag renders the gate. -/
theorem generate_requires_completed_wizard_witness :
    (true = true ∧ (some "a" : Option String).isSome = true) ∧
    setupPageView false = SetupPageView.wizardNotCompleteGate := by
  have ha := generate_requires_completed_wizard (some "a") true (none : Option Recommendations)
  have hb := generate_requires_completed_wizard (some "a") false (none : Option Recommendations)
  exact ⟨ha.1 (by decide), hb.2 rfl⟩

/-- The per-step required-fields relation as the code enforces it: step 1
requires `experience`, step 2 `budget`, step 3 `use_case` (the `arm_type`
choice shown on step 3 is not tested by `canProceed`), step 4
`compute_platform`, step 5 `camera_preference`. -/
def requiredFieldsPresent (step : Int) (p : WizardProfile) : Prop :=
  (step = 1 ∧ p.experience.isSome = true) ∨
  (step = 2 ∧ p.budget.isSome = true) ∨
  (step = 3 ∧ p.use_case.isSome = true) ∨
  (step = 4 ∧ p.compute_platform.isSome = true) ∨
  (step = 5 ∧ p.camera_preference.isSome = true)

/-- C6 (amended): the Next/Finish button is enabled — and hence a step write
can be submitted — exactly when the step is one of 1..5, its required field
is present (step 3 requires only `use_case`), and no save is in flight. -/
theorem nextEnabled_iff_required_fields (step : Int) (p : WizardProfile)
    (loading : Bool) :
    nextEnabled step p loading = true ↔
      requiredFieldsPresent step p ∧ loading = false := by
  unfold nextEnabled canProceed requiredFieldsPresent
  by_cases h1 : step = 1
  · subst h1
    simp [Bool.and_eq_true]
  · by_cases h2 : step = 2
    · subst h2
      simp [Bool.and_eq_true]
    · by_cases h3 : step = 3
      · subst h3
        simp [Bool.and_eq_true]
      · by_cases h4 : step = 4
        · subst h4
          simp [Bool.and_eq_true]
        · by_cases h5 : step = 5
          · subst h5
            simp [Bool.and_eq_true]
          · simp [h1, h2, h3, h4, h5]

/-- C6 counterexample: on step 3 with a use case chosen but no arm type, the
Next button is enabled, so a step write is submitted although the claim's
required field `arm_type` is absent. -/
theorem step3_next_enabled_without_arm_type :
    nextEnabled 3 profileUseCaseOnly false = true ∧
    profileUseCaseOnly.arm_type = none := by
  decide

/-- C3 (amended): for every accepted comparison, `differing_specs` is exactly
the set of keys in the key union on which some pair of returned components
disagree (values compared in normalized string form, an absent value counting
as distinct from every present one), and `common_specs` is exactly the set of
keys present in every returned component — not the complement of
`differing_specs` within the key union. -/
theorem compare_spec_key_sets (catalog : Int → Option CompComponent)
    (ids : List Int) (r : ComparisonResult)
    (h : compare catalog ids = Except.ok r) (k : String) :
    (k ∈ r.differing_specs ↔ k ∈ keyUnion r.components ∧
      ∃ c ∈ r.components, ∃ d ∈ r.components, specValue c k ≠ specValue d k) ∧
    (k ∈ r.common_specs ↔ k ∈ keyUnion r.components ∧
      ∀ c ∈ r.components, (specValue c k).isSome = true) := by
  unfold compare at h
  by_cases hc : 2 ≤ ids.length ∧ ids.length ≤ 5 ∧ ids.Nodup
  · rw [if_pos hc] at h
    cases hm : ids.mapM catalog with
    | none =>
        rw [hm] at h
        exact Except.noConfusion h
    | some cs =>
        rw [hm] at h
        injection h with h
        subst h
        constructor
        · simp [List.mem_filter, isDiffering, List.any_eq_true, bne_iff_ne]
        · simp [List.mem_filter, isCommon, List.all_eq_true]
  · rw [if_neg hc] at h
    exact Except.noConfusion h

/-- Witness for C3 (amended) at the red/blue fixture: the color key is
differing (the two values disagree) and common (present in both). -/
theorem compare_spec_key_sets_witness :
    ("color" ∈ cexResult.differing_specs ↔ "color" ∈ keyUnion cexResult.components ∧
      ∃ c ∈ cexResult.components, ∃ d ∈ cexResult.components,
        specValue c "color" ≠ specValue d "color") ∧
    ("color" ∈ cexResult.common_specs ↔ "color" ∈ keyUnion cexResult.components ∧
      ∀ c ∈ cexResult.components, (specValue c "color").isSome = true) :=
  compare_spec_key_sets cat2 [1, 2] cexResult (by rfl) "color"

/-- C3 counterexample: comparing the red and blue fixture components, the
color key is in `differing_specs` yet also in `common_specs`, while the
complement of `differing_specs` within the key union is empty — so
`common_specs` is not that complement. -/
theorem compare_common_not_complement :
    compare cat2 [1, 2] = Except.ok cexResult ∧
    cexResult.differing_specs = ["color"] ∧
    cexResult.common_specs = ["color"] ∧
    (keyUnion cexResult.components).filter
      (fun k => !(cexResult.differing_specs.contains k)) = [] := by
  exact ⟨rfl, rfl, rfl, rfl⟩

end SO101
